import Mathlib

/-!
Verification of `scripts/create-placeholder.py`.

The script builds a 300x300 RGB image: a horizontal gradient drawn with
Pillow rectangles, a music-note icon (two ellipses and a line), an optional
caption, then a PNG save and two printed report lines.  We embed the canvas
as a function from pixel coordinates to RGB triples, the drawing calls as
canvas transformers following Pillow's documented semantics (rectangle
corners are inclusive), and the whole run as a pure function of an
environment that carries the script's directory, the backend's shape
rasterizers, and the outcome of the save step.
-/

/-- An RGB color: three 8-bit channels, red, green, blue. -/
abbrev RGB := Nat × Nat × Nat

/-- The in-memory pixel buffer: color at column `x`, row `y`.
Only coordinates with `x < 300` and `y < 300` are on the canvas. -/
abbrev Canvas := Nat → Nat → RGB

/-- Width passed to `Image.new` in the script: 300. -/
def imgWidth : Nat := 300

/-- Height passed to `Image.new` in the script: 300. -/
def imgHeight : Nat := 300

/-- Background color `#17181c` passed to `Image.new`: (0x17, 0x18, 0x1c). -/
def background : RGB := (23, 24, 28)

/-- The canvas right after `Image.new('RGB', (300, 300), color=..)`:
every pixel holds the background color. -/
def initialCanvas : Canvas := fun _ _ => background

/-- The gradient gray value `int(23 + (i / 300) * 13)` from the loop body.
For `0 ≤ i < 300` the real number `13 * i / 300` is never within `1/300` of a
nonzero integer, far outside double-precision rounding error, so the Python
float computation truncates exactly like natural-number division. -/
def colorVal (i : Nat) : Nat := 23 + i * 13 / 300

/-- The fill color `(color_val, color_val, color_val + 4)` used at column `i`. -/
def gradColor (i : Nat) : RGB := (colorVal i, colorVal i, colorVal i + 4)

/-- Pillow `draw.rectangle([(x0, y0), (x1, y1)], fill=col)`: paints every
pixel with `x0 ≤ x ≤ x1` ∧ `y0 ≤ y ≤ y1` (both corners inclusive), pixels
outside the canvas being clipped by the library. -/
def fillRect (x0 y0 x1 y1 : Nat) (col : RGB) (c : Canvas) : Canvas :=
  fun x y => if x0 ≤ x ∧ x ≤ x1 ∧ y0 ≤ y ∧ y ≤ y1 then col else c x y

/-- One iteration of the gradient loop:
`draw.rectangle([(i, 0), (i+1, 300)], fill=(v, v, v+4))`. -/
def gradientStep (c : Canvas) (i : Nat) : Canvas :=
  fillRect i 0 (i + 1) 300 (gradColor i) c

/-- The canvas after the first `n` iterations of `for i in range(300)`. -/
def gradientPass (n : Nat) : Canvas :=
  (List.range n).foldl gradientStep initialCanvas

/-- The canvas after the whole gradient loop, before the icon is drawn. -/
def afterGradient : Canvas := gradientPass 300

/-- The accent color `#62f5a9`: (0x62, 0xf5, 0xa9). -/
def accent : RGB := (98, 245, 169)

/-- Modelled from the spec: Pillow's rasterizer for a shape (ellipse
outline, wide line, filled ellipse, text) is not part of this repository,
so a shape is abstracted as the set of pixels the backend touches, given as
a Boolean mask; drawing paints exactly those pixels with the given color. -/
def drawMasked (m : Nat → Nat → Bool) (col : RGB) (c : Canvas) : Canvas :=
  fun x y => if m x y then col else c x y

/-- The canvas after the three icon calls, in program order: the outlined
note head, the stem line, the filled flag ellipse, each in accent color. -/
def iconCanvas (mHead mStem mFlag : Nat → Nat → Bool) : Canvas :=
  drawMasked mFlag accent (drawMasked mStem accent (drawMasked mHead accent afterGradient))

/-- The canvas at save time: if the caption call succeeded (`textOk`) its
mask is painted in accent color; if it raised, the `except: pass` leaves
the icon canvas untouched. -/
def finalCanvas (mHead mStem mFlag : Nat → Nat → Bool) (textOk : Bool)
    (mText : Nat → Nat → Bool) : Canvas :=
  if textOk then drawMasked mText accent (iconCanvas mHead mStem mFlag)
  else iconCanvas mHead mStem mFlag

/-- A rasterizer mask confined to the inclusive bounding box
`[x0, x1] × [y0, y1]`: it touches no pixel outside the box. -/
def InBox (x0 y0 x1 y1 : Nat) (m : Nat → Nat → Bool) : Prop :=
  ∀ x y, m x y = true → x0 ≤ x ∧ x ≤ x1 ∧ y0 ≤ y ∧ y ≤ y1

/-- Channels within an off-by-one tolerance of each other. -/
def near1 (a b : Nat) : Prop := a ≤ b + 1 ∧ b ≤ a + 1

instance near1Decidable (a b : Nat) : Decidable (near1 a b) :=
  inferInstanceAs (Decidable (a ≤ b + 1 ∧ b ≤ a + 1))

/-- `os.path.join(os.path.dirname(__file__), '..', 'public', 'img',
'placeholder-new.png')`. -/
def outputPath (scriptDir : String) : String :=
  scriptDir ++ "/../public/img/placeholder-new.png"

/-- Number of tenths of a kilobyte printed for a file of `size` bytes:
`size / 1024` is an exact dyadic rational, and Python's `:.1f` rounds it to
the nearest tenth, ties to even. -/
def roundTenths (size : Nat) : Nat :=
  if 1024 < 2 * (size * 10 % 1024) then size * 10 / 1024 + 1
  else if 2 * (size * 10 % 1024) < 1024 then size * 10 / 1024
  else if size * 10 / 1024 % 2 = 0 then size * 10 / 1024
  else size * 10 / 1024 + 1

/-- The decimal rendering `{size / 1024:.1f}` of the size in kilobytes. -/
def fmtKB (size : Nat) : String :=
  toString (roundTenths size / 10) ++ "." ++ toString (roundTenths size % 10)

/-- First printed line: `f"✓ Created optimized placeholder: {output_path}"`. -/
def line1 (path : String) : String := "✓ Created optimized placeholder: " ++ path

/-- Second printed line: `f"✓ Size: {size / 1024:.1f}KB (was 4.4MB)"`. -/
def line2 (size : Nat) : String := "✓ Size: " ++ fmtKB size ++ "KB (was 4.4MB)"

/-- The save call `img.save(output_path, 'PNG', optimize=True, quality=85)`:
Pillow opens the path for binary write, truncating any existing file, and
encodes the 300x300 RGB canvas as an optimized PNG. -/
structure SaveRec where
  path : String
  format : String
  optimize : Bool
  overwrite : Bool
  width : Nat
  height : Nat
  mode : String
  deriving DecidableEq, Repr

/-- Everything outside the program that a run can observe: the script's own
directory, the backend's rasterizer masks, whether the caption call raises
(`textOk = false` means it raised), whether the save step raises a
filesystem error, and the byte size `os.path.getsize` reads back after a
successful save. -/
structure Env where
  scriptDir : String
  mHead : Nat → Nat → Bool
  mStem : Nat → Nat → Bool
  mFlag : Nat → Nat → Bool
  textOk : Bool
  mText : Nat → Nat → Bool
  saveErr : Bool
  savedSize : Nat

/-- Observable outcome of a run: the canvas handed to the encoder, the
output path, the save record if the save succeeded, the list of filesystem
paths written, standard output, and the process exit code. -/
structure RunResult where
  canvas : Canvas
  outPath : String
  save : Option SaveRec
  fsWrites : List String
  stdout : List String
  exitCode : Nat

/-- The whole script, top to bottom: build the canvas, compute the output
path, then save; a filesystem error on save propagates uncaught (nothing
printed, exit 1), otherwise the file is written and both lines printed. -/
def run (env : Env) : RunResult :=
  let c := finalCanvas env.mHead env.mStem env.mFlag env.textOk env.mText
  let path := outputPath env.scriptDir
  if env.saveErr then
    { canvas := c, outPath := path, save := none, fsWrites := [], stdout := [], exitCode := 1 }
  else
    { canvas := c, outPath := path,
      save := some { path := path, format := "PNG", optimize := true, overwrite := true,
                     width := imgWidth, height := imgHeight, mode := "RGB" },
      fsWrites := [path],
      stdout := [line1 path, line2 env.savedSize],
      exitCode := 0 }

/-- The drawing calls the script issues, with the literal coordinates each
call specifies. -/
inductive Op where
  | rect : Nat → Nat → Nat → Nat → RGB → Op
  | ellipseOutline : Nat → Nat → Nat → Nat → RGB → Nat → Op
  | lineSeg : Nat → Nat → Nat → Nat → RGB → Nat → Op
  | ellipseFill : Nat → Nat → Nat → Nat → RGB → Op
  | textAt : Nat → Nat → String → RGB → Op
  deriving DecidableEq

/-- The full sequence of drawing calls, in program order: the 300 gradient
rectangles, the note head, the stem, the flag, and the caption. -/
def ops : List Op :=
  (List.range 300).map (fun i => Op.rect i 0 (i + 1) 300 (gradColor i)) ++
  [Op.ellipseOutline 120 140 180 200 accent 2,
   Op.lineSeg 175 150 175 100 accent 3,
   Op.ellipseFill 165 95 185 115 accent,
   Op.textAt 150 230 "No Artwork" accent]

/-- The coordinate points a drawing call specifies. -/
def Op.points : Op → List (Nat × Nat)
  | Op.rect x0 y0 x1 y1 _ => [(x0, y0), (x1, y1)]
  | Op.ellipseOutline x0 y0 x1 y1 _ _ => [(x0, y0), (x1, y1)]
  | Op.lineSeg x0 y0 x1 y1 _ _ => [(x0, y0), (x1, y1)]
  | Op.ellipseFill x0 y0 x1 y1 _ => [(x0, y0), (x1, y1)]
  | Op.textAt x y _ _ => [(x, y)]

/-- The disjoint-strip variant of the gradient: column `i` only, rows
`[0, 300)`, with the same per-column color. -/
def stripStep (c : Canvas) (i : Nat) : Canvas :=
  fun x y => if x = i ∧ y < 300 then gradColor i else c x y

/-- The canvas after `n` disjoint one-pixel-wide strips. -/
def disjointGradient (n : Nat) : Canvas :=
  (List.range n).foldl stripStep initialCanvas

/-- The canvas after `n` gradient iterations, evaluated at a pixel: strip
`i` paints columns `i` and `i + 1`, so the last writer of column `x` among
the first `n` strips is strip `x` when `x < n`, strip `n - 1` when `x = n`,
and no strip otherwise. -/
theorem gradientPass_eval (n x y : Nat) (hy : y ≤ 300) :
    gradientPass n x y =
      if x < n then gradColor x
      else if x = n ∧ n ≠ 0 then gradColor (n - 1)
      else background := by
  induction n with
  | zero => simp [gradientPass, initialCanvas]
  | succ n ih =>
    have hstep : gradientPass (n + 1) = gradientStep (gradientPass n) n := by
      simp [gradientPass, List.range_succ]
    rw [hstep]
    simp only [gradientStep, fillRect]
    rw [ih]
    split_ifs <;> first | rfl | omega | exact congrArg gradColor (by omega)

/-- The canvas after `n` disjoint strips, evaluated at an on-canvas pixel:
column `x` is painted exactly when `x < n`. -/
theorem disjointGradient_eval (n x y : Nat) (hy : y < 300) :
    disjointGradient n x y = if x < n then gradColor x else background := by
  induction n with
  | zero => simp [disjointGradient, initialCanvas]
  | succ n ih =>
    have hstep : disjointGradient (n + 1) = stripStep (disjointGradient n) n := by
      simp [disjointGradient, List.range_succ]
    rw [hstep]
    simp only [stripStep]
    rw [ih]
    split_ifs <;> first | rfl | omega | exact congrArg gradColor (by omega)

/-- A mask confined to a bounding box leaves columns left of the box alone. -/
theorem inBox_left {x0 y0 x1 y1 : Nat} {m : Nat → Nat → Bool}
    (h : InBox x0 y0 x1 y1 m) {x y : Nat} (hx : x < x0) : m x y = false := by
  cases hm : m x y
  · rfl
  · exact absurd (h x y hm).1 (by omega)

/-- A mask confined to a bounding box leaves columns right of the box alone. -/
theorem inBox_right {x0 y0 x1 y1 : Nat} {m : Nat → Nat → Bool}
    (h : InBox x0 y0 x1 y1 m) {x y : Nat} (hx : x1 < x) : m x y = false := by
  cases hm : m x y
  · rfl
  · exact absurd (h x y hm).2.1 (by omega)

/-- The canvas field of a run is the final canvas, whether or not the save
step raised. -/
theorem run_canvas (env : Env) :
    (run env).canvas = finalCanvas env.mHead env.mStem env.mFlag env.textOk env.mText := by
  cases h : env.saveErr <;> simp [run, h]

/-- The printed tenths-of-a-kilobyte count is the nearest tenth of
`size / 1024`: it differs from the exact value by at most half a tenth. -/
theorem roundTenths_close (size : Nat) :
    ((1024 : Int) * roundTenths size - 10 * size).natAbs ≤ 512 := by
  have hdm := Nat.div_add_mod (size * 10) 1024
  have hlt : size * 10 % 1024 < 1024 := Nat.mod_lt _ (by norm_num)
  unfold roundTenths
  split_ifs <;> omega

/-- On-canvas pixels after the gradient loop hold their column's color:
of the two overlapping strips that paint column `x`, strip `x` is drawn
last. -/
theorem afterGradient_col (x y : Nat) (hx : x < 300) (hy : y < 300) :
    afterGradient x y = gradColor x := by
  show gradientPass 300 x y = _
  rw [gradientPass_eval 300 x y (by omega), if_pos hx]

/-- C1: the program takes no input and consults no external state except
the script's own path; the canvas it produces is a function of the
embedded constants and the drawing backend alone, so any two runs whose
backend behaves the same — regardless of script path, filesystem state, or
reported file size — produce pixel-identical images. -/
theorem c1_deterministic (e1 e2 : Env)
    (hH : e1.mHead = e2.mHead) (hS : e1.mStem = e2.mStem) (hF : e1.mFlag = e2.mFlag)
    (hT : e1.textOk = e2.textOk) (hX : e1.mText = e2.mText) :
    (run e1).canvas = (run e2).canvas := by
  rw [run_canvas, run_canvas, hH, hS, hF, hT, hX]

/-- C1 witness: two environments differing in script path, save outcome and
reported size, with the same backend, yield the same canvas. -/
theorem c1_deterministic_witness :
    (run ⟨"/a/scripts", fun _ _ => false, fun _ _ => false, fun _ _ => false, true,
      fun _ _ => false, false, 3000⟩).canvas =
    (run ⟨"/b/elsewhere", fun _ _ => false, fun _ _ => false, fun _ _ => false, true,
      fun _ _ => false, true, 77⟩).canvas :=
  c1_deterministic _ _ rfl rfl rfl rfl rfl

/-- C2: after the gradient pass and before the icon and caption are drawn,
every on-canvas pixel in column `i` holds `(v, v, v + 4)` with
`v = 23 + (i * 13) / 300`, as if each column had been filled as a
one-pixel-wide full-height strip. -/
theorem c2_gradient_column (i y : Nat) (hi : i < 300) (hy : y < 300) :
    afterGradient i y = (colorVal i, colorVal i, colorVal i + 4) := by
  rw [afterGradient_col i y hi hy]
  rfl

/-- C2 witness: column 150 of the gradient holds gray value 29. -/
theorem c2_gradient_column_witness : afterGradient 150 10 = (29, 29, 33) :=
  (c2_gradient_column 150 10 (by decide) (by decide)).trans (by decide)

/-- C10: although the gradient rectangles use inclusive corners
`(i, 0)-(i+1, 300)` — consecutive strips overlapping by one column and the
last call reaching one pixel past the right and bottom edges — drawing them
in increasing column order leaves, on every on-canvas pixel, exactly the
image of disjoint one-pixel-wide strips `[i, i+1) × [0, 300)` with the
same per-column colors. -/
theorem c10_overlap_equiv (x y : Nat) (hx : x < 300) (hy : y < 300) :
    afterGradient x y = disjointGradient 300 x y := by
  show gradientPass 300 x y = _
  rw [gradientPass_eval 300 x y (by omega), disjointGradient_eval 300 x y hy, if_pos hx,
    if_pos hx]

/-- C10 witness: the overlapping and the disjoint gradients agree at
pixel (299, 0). -/
theorem c10_overlap_equiv_witness : afterGradient 299 0 = disjointGradient 300 299 0 :=
  c10_overlap_equiv 299 0 (by decide) (by decide)

/-- C3: in the final image, with each icon rasterizer confined to its
call's bounding box and the caption mask not reaching columns 0 and 299,
the pixel at column 0 equals (23, 23, 27) exactly, and every channel of
the pixel at column 299 is within one unit of (36, 36, 40). -/
theorem c3_endpoints (mHead mStem mFlag mText : Nat → Nat → Bool) (textOk : Bool)
    (y : Nat) (hy : y < 300)
    (hH : InBox 120 140 180 200 mHead) (hS : InBox 174 100 176 150 mStem)
    (hF : InBox 165 95 185 115 mFlag)
    (hT0 : mText 0 y = false) (hT299 : mText 299 y = false) :
    finalCanvas mHead mStem mFlag textOk mText 0 y = (23, 23, 27) ∧
    near1 (finalCanvas mHead mStem mFlag textOk mText 299 y).1 36 ∧
    near1 (finalCanvas mHead mStem mFlag textOk mText 299 y).2.1 36 ∧
    near1 (finalCanvas mHead mStem mFlag textOk mText 299 y).2.2 40 := by
  have h0 : finalCanvas mHead mStem mFlag textOk mText 0 y = (23, 23, 27) := by
    have hg : afterGradient 0 y = (23, 23, 27) := by
      rw [afterGradient_col 0 y (by omega) hy]
      decide
    cases textOk <;>
      simp [finalCanvas, iconCanvas, drawMasked, hg, hT0,
        inBox_left hH (by omega : (0 : Nat) < 120),
        inBox_left hS (by omega : (0 : Nat) < 174),
        inBox_left hF (by omega : (0 : Nat) < 165)]
  have h299 : finalCanvas mHead mStem mFlag textOk mText 299 y = (35, 35, 39) := by
    have hg : afterGradient 299 y = (35, 35, 39) := by
      rw [afterGradient_col 299 y (by omega) hy]
      decide
    cases textOk <;>
      simp [finalCanvas, iconCanvas, drawMasked, hg, hT299,
        inBox_right hH (by omega : (180 : Nat) < 299),
        inBox_right hS (by omega : (176 : Nat) < 299),
        inBox_right hF (by omega : (185 : Nat) < 299)]
  rw [h0, h299]
  exact ⟨rfl, by decide, by decide, by decide⟩

/-- C3 witness: with trivial rasterizers and a failed caption, row 7 shows
the exact left endpoint and the within-one right endpoint. -/
theorem c3_endpoints_witness :
    finalCanvas (fun _ _ => false) (fun _ _ => false) (fun _ _ => false) false
      (fun _ _ => false) 0 7 = (23, 23, 27) ∧
    near1 ((finalCanvas (fun _ _ => false) (fun _ _ => false) (fun _ _ => false) false
      (fun _ _ => false) 299 7).1) 36 ∧
    near1 ((finalCanvas (fun _ _ => false) (fun _ _ => false) (fun _ _ => false) false
      (fun _ _ => false) 299 7).2.1) 36 ∧
    near1 ((finalCanvas (fun _ _ => false) (fun _ _ => false) (fun _ _ => false) false
      (fun _ _ => false) 299 7).2.2) 40 :=
  c3_endpoints _ _ _ _ false 7 (by decide)
    (fun x y h => Bool.noConfusion h) (fun x y h => Bool.noConfusion h)
    (fun x y h => Bool.noConfusion h) rfl rfl

/-- C4, as stated, is false: not every drawing call keeps its coordinates
inside `[0, 300)` — every gradient rectangle specifies the corner
y-coordinate 300, and the last one the corner (300, 300). -/
theorem c4_bounds_cex :
    ¬ ∀ op ∈ ops, ∀ p ∈ Op.points op, p.1 < 300 ∧ p.2 < 300 := by
  intro h
  exact absurd (h (Op.rect 0 0 1 300 (gradColor 0)) (by decide) (1, 300) (by decide)).2
    (by decide)

/-- C4 amended: every drawing call the program issues specifies coordinates
within `[0, 300]` on each axis — at most one past the last pixel index,
the overhang clipped by the backend — and the canvas dimensions are the
constants 300 x 300. -/
theorem c4_bounds (op : Op) (hop : op ∈ ops) (p : Nat × Nat) (hp : p ∈ Op.points op) :
    (p.1 ≤ 300 ∧ p.2 ≤ 300) ∧ imgWidth = 300 ∧ imgHeight = 300 := by
  refine ⟨?_, rfl, rfl⟩
  rw [ops, List.mem_append] at hop
  rcases hop with hop | hop
  · rcases List.mem_map.mp hop with ⟨i, hi, rfl⟩
    have hi300 : i < 300 := List.mem_range.mp hi
    simp only [Op.points, List.mem_cons, List.not_mem_nil, or_false] at hp
    rcases hp with rfl | rfl <;> constructor <;> simp <;> omega
  · simp only [List.mem_cons, List.not_mem_nil, or_false] at hop
    rcases hop with rfl | rfl | rfl | rfl <;> revert p <;> decide

/-- C4 witness: the stem line call's first point (175, 150) is in bounds. -/
theorem c4_bounds_witness :
    ((175 : Nat) ≤ 300 ∧ (150 : Nat) ≤ 300) ∧ imgWidth = 300 ∧ imgHeight = 300 :=
  c4_bounds (Op.lineSeg 175 150 175 100 accent 3) (by decide) (175, 150) (by decide)

/-- C5: on a successful save, the second line of standard output is exactly
the literal prefix, the size in kilobytes to one decimal place, and the
static literal suffix "(was 4.4MB)"; the printed tenths count is the
nearest tenth of `size / 1024` (off by at most half a tenth). -/
theorem c5_size_line (env : Env) (h : env.saveErr = false) :
    (run env).stdout[1]? =
      some ("✓ Size: " ++ fmtKB env.savedSize ++ "KB (was 4.4MB)") ∧
    ((1024 : Int) * roundTenths env.savedSize - 10 * env.savedSize).natAbs ≤ 512 :=
  ⟨by simp [run, h, line2], roundTenths_close env.savedSize⟩

/-- C5 witness: a 3000-byte file is reported as 2.9KB. -/
theorem c5_size_line_witness :
    (run ⟨"/a/scripts", fun _ _ => false, fun _ _ => false, fun _ _ => false, true,
      fun _ _ => false, false, 3000⟩).stdout[1]? =
      some ("✓ Size: " ++ fmtKB 3000 ++ "KB (was 4.4MB)") ∧
    ((1024 : Int) * roundTenths 3000 - 10 * 3000).natAbs ≤ 512 :=
  c5_size_line _ rfl

/-- C6: the run exits non-zero exactly when the save step raises a
filesystem error — in which case nothing is printed, the error having
propagated uncaught — and on every other run both lines are printed and
the exit code is zero. -/
theorem c6_exit_status (env : Env) :
    ((run env).exitCode ≠ 0 ↔ env.saveErr = true) ∧
    (env.saveErr = true → (run env).stdout = []) ∧
    (env.saveErr = false →
      (run env).stdout = [line1 (outputPath env.scriptDir), line2 env.savedSize] ∧
      (run env).exitCode = 0) := by
  cases h : env.saveErr <;> simp [run, h]

/-- C6 witness: with a failing save the exit code is non-zero and nothing
is printed; instantiated at a concrete failing environment. -/
theorem c6_exit_status_witness :
    (((run ⟨"/a/scripts", fun _ _ => false, fun _ _ => false, fun _ _ => false, true,
        fun _ _ => false, true, 0⟩).exitCode ≠ 0 ↔ (true : Bool) = true) ∧
      ((true : Bool) = true →
        (run ⟨"/a/scripts", fun _ _ => false, fun _ _ => false, fun _ _ => false, true,
          fun _ _ => false, true, 0⟩).stdout = []) ∧
      ((true : Bool) = false →
        (run ⟨"/a/scripts", fun _ _ => false, fun _ _ => false, fun _ _ => false, true,
          fun _ _ => false, true, 0⟩).stdout =
          [line1 (outputPath "/a/scripts"), line2 0] ∧
        (run ⟨"/a/scripts", fun _ _ => false, fun _ _ => false, fun _ _ => false, true,
          fun _ _ => false, true, 0⟩).exitCode = 0)) :=
  c6_exit_status _

/-- C7: if the caption call raises, the exception is swallowed at that
point: the canvas the run saves is exactly the canvas left by the earlier
drawing steps, and execution still reaches the save step, writing the file
and exiting zero whenever the save itself does not raise. -/
theorem c7_caption_swallowed (env : Env) (h : env.textOk = false) :
    (run env).canvas = iconCanvas env.mHead env.mStem env.mFlag ∧
    (env.saveErr = false →
      (run env).fsWrites = [outputPath env.scriptDir] ∧ (run env).exitCode = 0) := by
  constructor
  · rw [run_canvas env, h]
    rfl
  · intro hs
    simp [run, hs]

/-- C7 witness: a run whose caption raised still writes the file and its
canvas is the icon canvas. -/
theorem c7_caption_swallowed_witness :
    (run ⟨"/a/scripts", fun _ _ => false, fun _ _ => false, fun _ _ => false, false,
      fun _ _ => true, false, 12⟩).canvas =
      iconCanvas (fun _ _ => false) (fun _ _ => false) (fun _ _ => false) ∧
    ((false : Bool) = false →
      (run ⟨"/a/scripts", fun _ _ => false, fun _ _ => false, fun _ _ => false, false,
        fun _ _ => true, false, 12⟩).fsWrites = [outputPath "/a/scripts"] ∧
      (run ⟨"/a/scripts", fun _ _ => false, fun _ _ => false, fun _ _ => false, false,
        fun _ _ => true, false, 12⟩).exitCode = 0) :=
  c7_caption_swallowed _ rfl

/-- C8: a successful run writes exactly one filesystem path — the file
`<script-dir>/../public/img/placeholder-new.png` — and the save is a PNG
encoding of the 300x300 RGB canvas with optimization on, opened for
truncating write so any stale file is fully overwritten. -/
theorem c8_single_write (env : Env) (h : env.saveErr = false) :
    (run env).fsWrites = [outputPath env.scriptDir] ∧
    (run env).save = some { path := outputPath env.scriptDir, format := "PNG",
                            optimize := true, overwrite := true, width := 300,
                            height := 300, mode := "RGB" } := by
  constructor <;> simp [run, h, imgWidth, imgHeight]

/-- C8 witness: the concrete output record of a successful run. -/
theorem c8_single_write_witness :
    (run ⟨"/a/scripts", fun _ _ => false, fun _ _ => false, fun _ _ => false, true,
      fun _ _ => false, false, 3000⟩).fsWrites = [outputPath "/a/scripts"] ∧
    (run ⟨"/a/scripts", fun _ _ => false, fun _ _ => false, fun _ _ => false, true,
      fun _ _ => false, false, 3000⟩).save =
      some { path := outputPath "/a/scripts", format := "PNG", optimize := true,
             overwrite := true, width := 300, height := 300, mode := "RGB" } :=
  c8_single_write _ rfl

/-- C9: on a successful run the first line printed to standard output is
the confirmation, which contains the output path of the written file as a
suffix. -/
theorem c9_first_line (env : Env) (h : env.saveErr = false) :
    (run env).stdout[0]? =
      some ("✓ Created optimized placeholder: " ++ outputPath env.scriptDir) := by
  simp [run, h, line1]

/-- C9 witness: the concrete first line of a successful run. -/
theorem c9_first_line_witness :
    (run ⟨"/a/scripts", fun _ _ => false, fun _ _ => false, fun _ _ => false, true,
      fun _ _ => false, false, 3000⟩).stdout[0]? =
      some ("✓ Created optimized placeholder: " ++ outputPath "/a/scripts") :=
  c9_first_line _ rfl
